import Mathlib

set_option maxRecDepth 4000000
set_option maxHeartbeats 4000000

/-!
Verification of the certificate-anchoring core of the repository:
fingerprint derivation (generateCertificateHash in src/blockchain.ts),
the store / verify / status coordinators in src/blockchain.ts, and the
three API route handlers (store POST, verify GET, verify POST).

The embedding is executable: keccak-256 is implemented in full so that
fingerprints of concrete certificate records can be evaluated by the
kernel.  The ledger smart contract (CertificateRegistry) is not part of
src/; where its behaviour is needed it is modelled from the spec and the
contract ABI, and marked as such.
-/

/-! ## Hex encoding and decoding (models the ethers DataHexString conventions) -/

/-- Lowercase hex digit for a nibble, as produced by ethers hexlify. -/
def hexDigitChar (n : Nat) : Char := if n < 10 then Char.ofNat (48 + n) else Char.ofNat (87 + n)

/-- Lowercase hex characters of a byte list, two digits per byte. -/
def hexChars : List Nat → List Char
  | [] => []
  | b :: bs => hexDigitChar (b / 16 % 16) :: hexDigitChar (b % 16) :: hexChars bs

/-- Hex string of a byte list with the 0x prefix (ethers hexlify of a byte array). -/
def hexlify (bs : List Nat) : String := String.mk ('0' :: 'x' :: hexChars bs)

/-- Value of one hex digit, accepting both lowercase and uppercase letters
(as ethers getBytes does on input). -/
def hexDigitVal (c : Char) : Option Nat :=
  if 48 ≤ c.toNat ∧ c.toNat ≤ 57 then some (c.toNat - 48)
  else if 97 ≤ c.toNat ∧ c.toNat ≤ 102 then some (c.toNat - 87)
  else if 65 ≤ c.toNat ∧ c.toNat ≤ 70 then some (c.toNat - 55)
  else none

/-- Decode pairs of hex digits into bytes. -/
def hexPairsToBytes : List Char → Option (List Nat)
  | [] => some []
  | [_] => none
  | c1 :: c2 :: rest =>
    match hexDigitVal c1, hexDigitVal c2, hexPairsToBytes rest with
    | some h, some l, some bs => some ((16 * h + l) :: bs)
    | _, _, _ => none

/-- Parse a 0x-prefixed 66-character hex string into its 32 bytes, the way the
ABI layer turns a DataHexString argument into a bytes32 value.  Any other
shape is rejected. -/
def getBytes32 (s : String) : Option (List Nat) :=
  match s.data with
  | '0' :: 'x' :: rest => if rest.length = 64 then hexPairsToBytes rest else none
  | _ => none

/-- The character is a lowercase hex digit (0-9 or a-f). -/
def isLowerHexDigit (c : Char) : Bool :=
  decide ((48 ≤ c.toNat ∧ c.toNat ≤ 57) ∨ (97 ≤ c.toNat ∧ c.toNat ≤ 102))

/-- Uppercase variant of a hex character, for building case-variant encodings. -/
def upperHexChar (c : Char) : Char :=
  if 97 ≤ c.toNat ∧ c.toNat ≤ 102 then Char.ofNat (c.toNat - 32) else c

/-- Uppercase variant of a hex string, leaving the 0x prefix and digits alone. -/
def toUpperHex (s : String) : String := String.mk (s.data.map upperHexChar)

/-- Test for the literal prefix 0x, the startsWith check of
storeCertificateOnBlockchain in src/blockchain.ts. -/
def strStartsWith0x (s : String) : Bool :=
  match s.data with
  | '0' :: 'x' :: _ => true
  | _ => false

/-! ## Keccak-256 (the hash behind ethers.keccak256) -/

/-- Mask for 64-bit lanes. -/
def mask64 : Nat := 18446744073709551615

/-- Rotate a 64-bit lane left by n bits. -/
def rotl64 (x n : Nat) : Nat := ((x <<< n) ||| (x >>> (64 - n))) % 18446744073709551616

/-- Bitwise complement within 64 bits. -/
def not64 (x : Nat) : Nat := x ^^^ mask64

/-- Round constants of keccak-f[1600]. -/
def keccakRC : List Nat :=
  [0x0000000000000001, 0x0000000000008082, 0x800000000000808a, 0x8000000080008000,
   0x000000000000808b, 0x0000000080000001, 0x8000000080008081, 0x8000000000008009,
   0x000000000000008a, 0x0000000000000088, 0x0000000080008009, 0x000000008000000a,
   0x000000008000808b, 0x800000000000008b, 0x8000000000008089, 0x8000000000008003,
   0x8000000000008002, 0x8000000000000080, 0x000000000000800a, 0x800000008000000a,
   0x8000000080008081, 0x8000000000008080, 0x0000000080000001, 0x8000000080008008]

/-- One round of keccak-f[1600] on a 25-lane state (lane i holds A[x = i mod 5, y = i / 5]). -/
def keccakRound (rc : Nat) (st : List Nat) : List Nat :=
  match st with
  | [a0, a1, a2, a3, a4, a5, a6, a7, a8, a9, a10, a11, a12, a13, a14, a15, a16, a17, a18, a19, a20, a21, a22, a23, a24] =>
    let c0 := a0 ^^^ a5 ^^^ a10 ^^^ a15 ^^^ a20
    let c1 := a1 ^^^ a6 ^^^ a11 ^^^ a16 ^^^ a21
    let c2 := a2 ^^^ a7 ^^^ a12 ^^^ a17 ^^^ a22
    let c3 := a3 ^^^ a8 ^^^ a13 ^^^ a18 ^^^ a23
    let c4 := a4 ^^^ a9 ^^^ a14 ^^^ a19 ^^^ a24
    let d0 := c4 ^^^ rotl64 c1 1
    let d1 := c0 ^^^ rotl64 c2 1
    let d2 := c1 ^^^ rotl64 c3 1
    let d3 := c2 ^^^ rotl64 c4 1
    let d4 := c3 ^^^ rotl64 c0 1
    let t0 := a0 ^^^ d0
    let t1 := a1 ^^^ d1
    let t2 := a2 ^^^ d2
    let t3 := a3 ^^^ d3
    let t4 := a4 ^^^ d4
    let t5 := a5 ^^^ d0
    let t6 := a6 ^^^ d1
    let t7 := a7 ^^^ d2
    let t8 := a8 ^^^ d3
    let t9 := a9 ^^^ d4
    let t10 := a10 ^^^ d0
    let t11 := a11 ^^^ d1
    let t12 := a12 ^^^ d2
    let t13 := a13 ^^^ d3
    let t14 := a14 ^^^ d4
    let t15 := a15 ^^^ d0
    let t16 := a16 ^^^ d1
    let t17 := a17 ^^^ d2
    let t18 := a18 ^^^ d3
    let t19 := a19 ^^^ d4
    let t20 := a20 ^^^ d0
    let t21 := a21 ^^^ d1
    let t22 := a22 ^^^ d2
    let t23 := a23 ^^^ d3
    let t24 := a24 ^^^ d4
    let b0 := t0
    let b10 := rotl64 t1 1
    let b20 := rotl64 t2 62
    let b5 := rotl64 t3 28
    let b15 := rotl64 t4 27
    let b16 := rotl64 t5 36
    let b1 := rotl64 t6 44
    let b11 := rotl64 t7 6
    let b21 := rotl64 t8 55
    let b6 := rotl64 t9 20
    let b7 := rotl64 t10 3
    let b17 := rotl64 t11 10
    let b2 := rotl64 t12 43
    let b12 := rotl64 t13 25
    let b22 := rotl64 t14 39
    let b23 := rotl64 t15 41
    let b8 := rotl64 t16 45
    let b18 := rotl64 t17 15
    let b3 := rotl64 t18 21
    let b13 := rotl64 t19 8
    let b14 := rotl64 t20 18
    let b24 := rotl64 t21 2
    let b9 := rotl64 t22 61
    let b19 := rotl64 t23 56
    let b4 := rotl64 t24 14
    let o0 := b0 ^^^ (not64 b1 &&& b2)
    let o1 := b1 ^^^ (not64 b2 &&& b3)
    let o2 := b2 ^^^ (not64 b3 &&& b4)
    let o3 := b3 ^^^ (not64 b4 &&& b0)
    let o4 := b4 ^^^ (not64 b0 &&& b1)
    let o5 := b5 ^^^ (not64 b6 &&& b7)
    let o6 := b6 ^^^ (not64 b7 &&& b8)
    let o7 := b7 ^^^ (not64 b8 &&& b9)
    let o8 := b8 ^^^ (not64 b9 &&& b5)
    let o9 := b9 ^^^ (not64 b5 &&& b6)
    let o10 := b10 ^^^ (not64 b11 &&& b12)
    let o11 := b11 ^^^ (not64 b12 &&& b13)
    let o12 := b12 ^^^ (not64 b13 &&& b14)
    let o13 := b13 ^^^ (not64 b14 &&& b10)
    let o14 := b14 ^^^ (not64 b10 &&& b11)
    let o15 := b15 ^^^ (not64 b16 &&& b17)
    let o16 := b16 ^^^ (not64 b17 &&& b18)
    let o17 := b17 ^^^ (not64 b18 &&& b19)
    let o18 := b18 ^^^ (not64 b19 &&& b15)
    let o19 := b19 ^^^ (not64 b15 &&& b16)
    let o20 := b20 ^^^ (not64 b21 &&& b22)
    let o21 := b21 ^^^ (not64 b22 &&& b23)
    let o22 := b22 ^^^ (not64 b23 &&& b24)
    let o23 := b23 ^^^ (not64 b24 &&& b20)
    let o24 := b24 ^^^ (not64 b20 &&& b21)
    [o0 ^^^ rc, o1, o2, o3, o4, o5, o6, o7, o8, o9, o10, o11, o12, o13, o14,
     o15, o16, o17, o18, o19, o20, o21, o22, o23, o24]
  | _ => st

/-- The keccak-f[1600] permutation: 24 rounds. -/
def keccakF (st : List Nat) : List Nat := keccakRC.foldl (fun s rc => keccakRound rc s) st

/-- Little-endian interpretation of up to 8 bytes as a 64-bit lane. -/
def bytesToLane (bs : List Nat) : Nat := bs.foldr (fun b acc => b + 256 * acc) 0

/-- Split a rate block into little-endian lanes (fuel-indexed, 17 lanes for rate 136). -/
def toLanes : Nat → List Nat → List Nat
  | 0, _ => []
  | n + 1, bs => bytesToLane (bs.take 8) :: toLanes n (bs.drop 8)

/-- XOR a block of lanes into the front of the state. -/
def xorInto : List Nat → List Nat → List Nat
  | s :: ss, b :: bb => (s ^^^ b) :: xorInto ss bb
  | s, [] => s
  | [], _ => []

/-- Keccak pad10*1 with domain byte 0x01 for rate 136 (the original keccak-256
padding used by Ethereum, not the SHA-3 variant). -/
def padKeccak (msg : List Nat) : List Nat :=
  if msg.length % 136 = 135 then msg ++ [129]
  else msg ++ 1 :: (List.replicate (134 - msg.length % 136) 0 ++ [128])

/-- Absorb n rate-sized blocks of the padded message. -/
def absorbN : Nat → List Nat → List Nat → List Nat
  | 0, st, _ => st
  | n + 1, st, msg => absorbN n (keccakF (xorInto st (toLanes 17 (msg.take 136)))) (msg.drop 136)

/-- The 8 little-endian bytes of a 64-bit lane. -/
def laneBytes (l : Nat) : List Nat :=
  [l % 256, l / 256 % 256, l / 65536 % 256, l / 16777216 % 256,
   l / 4294967296 % 256, l / 1099511627776 % 256, l / 281474976710656 % 256,
   l / 72057594037927936 % 256]

/-- First 32 bytes squeezed from the state: lanes 0 to 3, little-endian. -/
def keccakOutput (st : List Nat) : List Nat :=
  laneBytes (st.getD 0 0) ++ laneBytes (st.getD 1 0) ++ laneBytes (st.getD 2 0) ++ laneBytes (st.getD 3 0)

/-- Keccak-256 digest (32 bytes) of a byte sequence. -/
def keccak256 (msg : List Nat) : List Nat :=
  keccakOutput (absorbN ((padKeccak msg).length / 136) (List.replicate 25 0) (padKeccak msg))

/-! ## UTF-8 and the JSON serialization done by JSON.stringify -/

/-- UTF-8 encoding of one character. -/
def utf8EncodeChar (c : Char) : List Nat :=
  if c.toNat < 128 then [c.toNat]
  else if c.toNat < 2048 then
    [192 + c.toNat / 64, 128 + c.toNat % 64]
  else if c.toNat < 65536 then
    [224 + c.toNat / 4096, 128 + c.toNat / 64 % 64, 128 + c.toNat % 64]
  else
    [240 + c.toNat / 262144, 128 + c.toNat / 4096 % 64, 128 + c.toNat / 64 % 64, 128 + c.toNat % 64]

/-- UTF-8 bytes of a string (models ethers.toUtf8Bytes). -/
def utf8Bytes (s : String) : List Nat :=
  s.data.foldr (fun c acc => utf8EncodeChar c ++ acc) []

/-- JSON string escaping of one character, as JSON.stringify performs it. -/
def jsonEscapeChar (c : Char) : List Char :=
  if c = '"' then ['\\', '"']
  else if c = '\\' then ['\\', '\\']
  else if c = Char.ofNat 8 then ['\\', 'b']
  else if c = Char.ofNat 9 then ['\\', 't']
  else if c = Char.ofNat 10 then ['\\', 'n']
  else if c = Char.ofNat 12 then ['\\', 'f']
  else if c = Char.ofNat 13 then ['\\', 'r']
  else if c.toNat < 32 then ['\\', 'u', '0', '0', hexDigitChar (c.toNat / 16), hexDigitChar (c.toNat % 16)]
  else [c]

/-- JSON string escaping, as JSON.stringify performs it on string values. -/
def jsonEscape (s : String) : String :=
  String.mk (s.data.foldr (fun c acc => jsonEscapeChar c ++ acc) [])

/-- A JavaScript property value as it can occur in the certificate-data object
delivered to generateCertificateHash: a string, a number, or absent. -/
inductive JsValue where
  | str (s : String)
  | num (n : Int)
  | undef
deriving DecidableEq

/-- A JavaScript object: a list of named properties. -/
abbrev JsObject := List (String × JsValue)

/-- Property read on a JavaScript object; an absent property reads as undefined. -/
def lookupProp : JsObject → String → JsValue
  | [], _ => JsValue.undef
  | (k2, v) :: rest, k => if k2 = k then v else lookupProp rest k

/-- Rendering of one property by JSON.stringify: strings are quoted and
escaped, numbers are printed in base 10, and a property whose value is
undefined is omitted altogether. -/
def renderProp (k : String) (v : JsValue) : Option String :=
  match v with
  | JsValue.undef => none
  | JsValue.str s => some ("\"" ++ k ++ "\":\"" ++ jsonEscape s ++ "\"")
  | JsValue.num n => some ("\"" ++ k ++ "\":" ++ toString n)

/-- The dataString built inside generateCertificateHash (src/blockchain.ts
lines 58-64): JSON.stringify of an object literal that copies exactly the
five certificate fields in this fixed order. -/
def canonicalString (o : JsObject) : String :=
  "\x7b" ++ String.intercalate ","
    (List.filterMap id
      [renderProp "certificateNumber" (lookupProp o "certificateNumber"),
       renderProp "recipientName" (lookupProp o "recipientName"),
       renderProp "certificateType" (lookupProp o "certificateType"),
       renderProp "issueDate" (lookupProp o "issueDate"),
       renderProp "issuingEntityId" (lookupProp o "issuingEntityId")]) ++ "\x7d"

/-! ## src/blockchain.ts -/

/-- The 32-byte digest underlying the certificate fingerprint. -/
def certDigest (certificateData : JsObject) : List Nat :=
  keccak256 (utf8Bytes (canonicalString certificateData))

/-- generateCertificateHash from src/blockchain.ts: keccak256 over the UTF-8
bytes of the canonical JSON string, returned as a 0x-prefixed lowercase hex
string (the ethers.keccak256 result format). -/
def generateCertificateHash (certificateData : JsObject) : String :=
  hexlify (certDigest certificateData)

/-- The ethers ZeroHash constant: 32 zero bytes in hex. -/
def ZeroHash : String :=
  "0x0000000000000000000000000000000000000000000000000000000000000000"

/-- The zero Ethereum address, returned by the contract for an unknown key. -/
def ZeroAddress : String := "0x0000000000000000000000000000000000000000"

/-- Outcome of an awaited external (ledger / provider) call: a value, or a
thrown error carrying its message. -/
inductive LedgerOutcome (α : Type) where
  | ok (value : α)
  | threw (message : String)
deriving DecidableEq

/-- The triple returned by the contract function verifyCertificate:
bytes32 hash (hex-encoded by the ABI decoder), uint256 timestamp, issuer
address. -/
structure ContractCert where
  hash : String
  timestamp : Nat
  issuer : String
deriving DecidableEq

/-- JavaScript expression s2 when s2 is truthy, else the fallback: the
pattern error.message or-else default used throughout src/blockchain.ts. -/
def jsOrS (s d : String) : String := if s = "" then d else s

/-- JavaScript expression o or-else default on an optional string. -/
def jsOr (o : Option String) (d : String) : String :=
  match o with
  | some s => jsOrS s d
  | none => d

/-- Result type of verifyCertificateOnBlockchain. -/
structure VerifyChainResult where
  success : Bool
  verified : Bool
  blockchainHash : Option String
  timestamp : Option Nat
  issuer : Option String
  error : Option String
deriving DecidableEq

/-- verifyCertificateOnBlockchain from src/blockchain.ts (lines 105-137),
parametrized by the outcome of the awaited contract call: on a returned
triple, verified is the comparison hash not-strictly-equal ZeroHash and the
three data fields are passed through only when verified; on a thrown error
the result is success false with the error message (or a fallback when the
message is empty). -/
def verifyCertificateOnBlockchain
    (client : String → LedgerOutcome ContractCert) (certificateNumber : String) :
    VerifyChainResult :=
  match client certificateNumber with
  | LedgerOutcome.ok c =>
    if c.hash = ZeroHash then ⟨true, false, none, none, none, none⟩
    else ⟨true, true, some c.hash, some c.timestamp, some c.issuer, none⟩
  | LedgerOutcome.threw msg =>
    ⟨false, false, none, none, none, some (jsOrS msg "Failed to verify certificate on blockchain")⟩

/-- Result type of storeCertificateOnBlockchain. -/
structure StoreChainResult where
  success : Bool
  transactionHash : Option String
  error : Option String
deriving DecidableEq

/-- storeCertificateOnBlockchain from src/blockchain.ts (lines 72-100),
parametrized by the outcome of the awaited transaction: the hash argument is
0x-prefixed when it is not already, the submission outcome is either a
receipt hash or a thrown error whose message is reported (with a fallback
when the message is empty). -/
def storeCertificateOnBlockchain
    (submit : String → String → LedgerOutcome String)
    (certificateNumber certificateHash : String) : StoreChainResult :=
  match submit certificateNumber
      (if strStartsWith0x certificateHash then certificateHash else "0x" ++ certificateHash) with
  | LedgerOutcome.ok txHash => ⟨true, some txHash, none⟩
  | LedgerOutcome.threw msg => ⟨false, none, some (jsOrS msg "Failed to store certificate on blockchain")⟩

/-- Result type of checkBlockchainConnection. -/
structure ConnStatus where
  connected : Bool
  network : Option String
  blockNumber : Option Nat
  error : Option String
deriving DecidableEq

/-- Outcome of the provider probe made by checkBlockchainConnection: either
both awaited calls return (network name and block number), or one of them
throws with a message. -/
inductive ProbeOutcome where
  | ok (networkName : String) (blockNumber : Nat)
  | threw (message : String)
deriving DecidableEq

/-- checkBlockchainConnection from src/blockchain.ts (lines 165-188):
a successful probe reports connected with the network name and block number;
a thrown error is caught and encoded as connected false with an error
message, never propagated. -/
def checkBlockchainConnection (p : ProbeOutcome) : ConnStatus :=
  match p with
  | ProbeOutcome.ok networkName blockNumber => ⟨true, some networkName, some blockNumber, none⟩
  | ProbeOutcome.threw msg => ⟨false, none, none, some (jsOrS msg "Failed to connect to blockchain")⟩

/-! ## The ledger (CertificateRegistry contract), modelled from the spec -/

/-- Modelled from the spec: the record held on the ledger for one key, as
described by the CertificateRegistry ABI in src/blockchain.ts (the contract
source itself is not under src/): a 32-byte certificate hash, an anchoring
timestamp in Unix seconds, and the issuer address. -/
structure LedgerRecord where
  hashBytes : List Nat
  timestamp : Nat
  issuer : String
deriving DecidableEq

/-- Modelled from the spec: the ledger state is a mapping from certificate
number to its stored record; later entries shadow earlier ones. -/
structure LedgerState where
  entries : List (String × LedgerRecord)
deriving DecidableEq

/-- First matching entry for a key. -/
def lookupRecord : List (String × LedgerRecord) → String → Option LedgerRecord
  | [], _ => none
  | (k2, r) :: rest, k => if k2 = k then some r else lookupRecord rest k

/-- Modelled from the spec: the contract view function verifyCertificate
returns the stored triple for a known key, and the all-zero sentinel values
(zero bytes32, zero timestamp, zero address) for a key never anchored, never
an error.  The ABI decoder renders the bytes32 value as a 0x-prefixed
lowercase hex string. -/
def contractVerify (st : LedgerState) (certificateNumber : String) : ContractCert :=
  match lookupRecord st.entries certificateNumber with
  | some r => ⟨hexlify r.hashBytes, r.timestamp, r.issuer⟩
  | none => ⟨ZeroHash, 0, ZeroAddress⟩

/-- Modelled from the spec: the contract function storeCertificate records
the 32 bytes denoted by its bytes32 argument under the key, together with
the block timestamp and the sender as issuer; a malformed bytes32 argument
is rejected by the ABI layer as a thrown error. -/
def contractStore (st : LedgerState) (certificateNumber hashBytes32 : String)
    (ts : Nat) (issuer : String) : LedgerOutcome LedgerState :=
  match getBytes32 hashBytes32 with
  | some bs => LedgerOutcome.ok ⟨(certificateNumber, ⟨bs, ts, issuer⟩) :: st.entries⟩
  | none => LedgerOutcome.threw "invalid BytesLike value"

/-- The ledger state after the store path of the store route succeeds for a
certificate record: the derived fingerprint, 0x-prefixed as in
storeCertificateOnBlockchain, written through the contract. -/
def anchorState (st : LedgerState) (certificateNumber : String)
    (certificateData : JsObject) (ts : Nat) (issuer : String) : LedgerState :=
  match contractStore st certificateNumber
      (if strStartsWith0x (generateCertificateHash certificateData)
       then generateCertificateHash certificateData
       else "0x" ++ generateCertificateHash certificateData) ts issuer with
  | LedgerOutcome.ok st2 => st2
  | LedgerOutcome.threw _ => st

/-- A ledger client whose query never throws and answers from the given
ledger state. -/
def okClient (st : LedgerState) : String → LedgerOutcome ContractCert :=
  fun k => LedgerOutcome.ok (contractVerify st k)

/-! ## The API route handlers -/

/-- Shape of a route response: 200 with a data payload, 400, or 500. -/
inductive ApiResponse (α : Type) where
  | ok (message : String) (data : α)
  | badRequest (message : String)
  | serverError (message : String)
deriving DecidableEq

/-- Data payload of the store route. -/
structure StoreData where
  certificateHash : String
  transactionHash : Option String
deriving DecidableEq

/-- Data payload of the verify GET route. -/
structure VerifyExistsData where
  verified : Bool
  blockchainHash : Option String
  timestamp : Option Nat
  issuer : Option String
deriving DecidableEq

/-- Data payload of the verify POST route. -/
structure VerifyMatchData where
  verified : Bool
  hashMatch : Bool
  localHash : Option String
  blockchainHash : Option String
  timestamp : Option Nat
  issuer : Option String
deriving DecidableEq

/-- The store route POST handler (src/unnamed/part_000): rejects with 400
when certificateNumber is absent or empty or certificateData is absent
(the JavaScript falsiness check), otherwise derives the hash, stores it,
and maps a failed store to 500 with the reported error. -/
def storePOST (submit : String → String → LedgerOutcome String)
    (certificateNumber? : Option String) (certificateData? : Option JsObject) :
    ApiResponse StoreData :=
  match certificateNumber?, certificateData? with
  | some cn, some cd =>
    if cn = "" then ApiResponse.badRequest "Certificate number and data are required"
    else
      match storeCertificateOnBlockchain submit cn (generateCertificateHash cd) with
      | ⟨true, txHash, _⟩ =>
        ApiResponse.ok "Certificate stored on blockchain successfully"
          ⟨generateCertificateHash cd, txHash⟩
      | ⟨false, _, err⟩ => ApiResponse.serverError (jsOr err "Failed to store on blockchain")
  | _, _ => ApiResponse.badRequest "Certificate number and data are required"

/-- The verify route GET handler (route 2 in src/BLOCKCHAIN_SETUP.md):
rejects with 400 when the certificateNumber query parameter is null or
empty, maps a failed chain query to 500, and otherwise reports the
verification data. -/
def verifyGET (client : String → LedgerOutcome ContractCert)
    (certificateNumber? : Option String) : ApiResponse VerifyExistsData :=
  match certificateNumber? with
  | some cn =>
    if cn = "" then ApiResponse.badRequest "Certificate number is required"
    else
      match verifyCertificateOnBlockchain client cn with
      | ⟨true, verified, bh, ts, issuer, _⟩ =>
        ApiResponse.ok
          (if verified then "Certificate verified on blockchain"
           else "Certificate not found on blockchain")
          ⟨verified, bh, ts, issuer⟩
      | ⟨false, _, _, _, _, err⟩ => ApiResponse.serverError (jsOr err "Failed to verify on blockchain")
  | none => ApiResponse.badRequest "Certificate number is required"

/-- The verify route POST handler (route 2 in src/BLOCKCHAIN_SETUP.md):
rejects with 400 on a falsy certificateNumber or certificateData, maps a
failed chain query to 500, answers the fixed not-found payload when the
certificate is not anchored, and otherwise compares the locally derived
hash against the chain hash with JavaScript strict equality. -/
def verifyPOST (client : String → LedgerOutcome ContractCert)
    (certificateNumber? : Option String) (certificateData? : Option JsObject) :
    ApiResponse VerifyMatchData :=
  match certificateNumber?, certificateData? with
  | some cn, some cd =>
    if cn = "" then ApiResponse.badRequest "Certificate number and data are required"
    else
      match verifyCertificateOnBlockchain client cn with
      | ⟨true, false, _, _, _, _⟩ =>
        ApiResponse.ok "Certificate not found on blockchain" ⟨false, false, none, none, none, none⟩
      | ⟨true, true, bh, ts, issuer, _⟩ =>
        ApiResponse.ok
          (if bh = some (generateCertificateHash cd) then "Certificate verified and hash matches"
           else "Certificate found but hash mismatch")
          ⟨true, decide (bh = some (generateCertificateHash cd)),
           some (generateCertificateHash cd), bh, ts, issuer⟩
      | ⟨false, _, _, _, _, err⟩ => ApiResponse.serverError (jsOr err "Failed to verify on blockchain")
  | _, _ => ApiResponse.badRequest "Certificate number and data are required"

/-! ## Concrete example values (the worked example of the spec) -/

/-- The example certificate record of the spec and setup guide. -/
def exObj : JsObject :=
  [("certificateNumber", JsValue.str "CERT-2025-ABC123"),
   ("recipientName", JsValue.str "John Doe"),
   ("certificateType", JsValue.str "Achievement"),
   ("issueDate", JsValue.str "2025-01-15"),
   ("issuingEntityId", JsValue.num 1)]

/-- The example record with the issue date tampered. -/
def exObjTampered : JsObject :=
  [("certificateNumber", JsValue.str "CERT-2025-ABC123"),
   ("recipientName", JsValue.str "John Doe"),
   ("certificateType", JsValue.str "Achievement"),
   ("issueDate", JsValue.str "2025-01-16"),
   ("issuingEntityId", JsValue.num 1)]

/-- The example record with its fields listed in reverse order. -/
def exObjReordered : JsObject :=
  [("issuingEntityId", JsValue.num 1),
   ("issueDate", JsValue.str "2025-01-15"),
   ("certificateType", JsValue.str "Achievement"),
   ("recipientName", JsValue.str "John Doe"),
   ("certificateNumber", JsValue.str "CERT-2025-ABC123")]

/-- Additional properties not among the five certificate fields. -/
def extraProps : JsObject :=
  [("grade", JsValue.str "A"), ("notes", JsValue.str "with honors")]

/-! ## Basic facts about the digest and its hex encoding -/

theorem keccakOutput_length (st : List Nat) : (keccakOutput st).length = 32 := by
  simp [keccakOutput, laneBytes]

theorem laneBytes_lt (l : Nat) : ∀ b ∈ laneBytes l, b < 256 := by
  intro b hb
  simp only [laneBytes, List.mem_cons, List.not_mem_nil, or_false] at hb
  rcases hb with h | h | h | h | h | h | h | h <;> omega

theorem keccakOutput_lt (st : List Nat) : ∀ b ∈ keccakOutput st, b < 256 := by
  intro b hb
  simp only [keccakOutput, List.mem_append, or_assoc] at hb
  rcases hb with h | h | h | h <;> exact laneBytes_lt _ b h

theorem keccak256_length (m : List Nat) : (keccak256 m).length = 32 :=
  keccakOutput_length _

theorem keccak256_lt (m : List Nat) : ∀ b ∈ keccak256 m, b < 256 :=
  keccakOutput_lt _

theorem certDigest_length (cd : JsObject) : (certDigest cd).length = 32 :=
  keccak256_length _

theorem certDigest_lt (cd : JsObject) : ∀ b ∈ certDigest cd, b < 256 :=
  keccak256_lt _

theorem hexDigitVal_hexDigitChar : ∀ n < 16, hexDigitVal (hexDigitChar n) = some n := by decide

theorem hexDigitChar_lower : ∀ n < 16, isLowerHexDigit (hexDigitChar n) = true := by decide

theorem hexChars_length (bs : List Nat) : (hexChars bs).length = 2 * bs.length := by
  induction bs with
  | nil => rfl
  | cons b rest ih => simp [hexChars, ih]; omega

theorem hexChars_lower (bs : List Nat) : ∀ c ∈ hexChars bs, isLowerHexDigit c = true := by
  induction bs with
  | nil => simp [hexChars]
  | cons b rest ih =>
    intro c hc
    simp only [hexChars, List.mem_cons] at hc
    rcases hc with h | h | h
    · subst h; exact hexDigitChar_lower _ (by omega)
    · subst h; exact hexDigitChar_lower _ (by omega)
    · exact ih c h

theorem hexPairsToBytes_hexChars (bs : List Nat) (h : ∀ b ∈ bs, b < 256) :
    hexPairsToBytes (hexChars bs) = some bs := by
  induction bs with
  | nil => rfl
  | cons b rest ih =>
    have hb : b < 256 := h b (List.mem_cons_self _ _)
    have h1 : hexDigitVal (hexDigitChar (b / 16 % 16)) = some (b / 16 % 16) :=
      hexDigitVal_hexDigitChar _ (by omega)
    have h2 : hexDigitVal (hexDigitChar (b % 16)) = some (b % 16) :=
      hexDigitVal_hexDigitChar _ (by omega)
    have ih2 := ih (fun x hx => h x (List.mem_cons_of_mem _ hx))
    simp only [hexChars, hexPairsToBytes, h1, h2, ih2]
    simp only [Option.some.injEq, List.cons.injEq, and_true]
    omega

theorem getBytes32_hexlify (bs : List Nat) (hlen : bs.length = 32) (h : ∀ b ∈ bs, b < 256) :
    getBytes32 (hexlify bs) = some bs := by
  simp [getBytes32, hexlify, hexChars_length, hlen, hexPairsToBytes_hexChars bs h]

theorem hexlify_inj (b1 b2 : List Nat) (h1l : b1.length = 32) (h1 : ∀ b ∈ b1, b < 256)
    (h2l : b2.length = 32) (h2 : ∀ b ∈ b2, b < 256) (he : hexlify b1 = hexlify b2) :
    b1 = b2 := by
  have hb := getBytes32_hexlify b1 h1l h1
  rw [he, getBytes32_hexlify b2 h2l h2] at hb
  exact (Option.some.inj hb).symm

theorem getBytes32_genHash (cd : JsObject) :
    getBytes32 (generateCertificateHash cd) = some (certDigest cd) :=
  getBytes32_hexlify _ (certDigest_length cd) (certDigest_lt cd)

theorem genHash_startsWith (cd : JsObject) :
    strStartsWith0x (generateCertificateHash cd) = true := by
  simp [generateCertificateHash, hexlify, strStartsWith0x]

/-! ## Facts about property lookup and canonicalization -/

theorem canonicalString_congr {o1 o2 : JsObject}
    (h1 : lookupProp o1 "certificateNumber" = lookupProp o2 "certificateNumber")
    (h2 : lookupProp o1 "recipientName" = lookupProp o2 "recipientName")
    (h3 : lookupProp o1 "certificateType" = lookupProp o2 "certificateType")
    (h4 : lookupProp o1 "issueDate" = lookupProp o2 "issueDate")
    (h5 : lookupProp o1 "issuingEntityId" = lookupProp o2 "issuingEntityId") :
    canonicalString o1 = canonicalString o2 := by
  unfold canonicalString
  rw [h1, h2, h3, h4, h5]

theorem lookupProp_not_mem (extra : JsObject) (k : String) (h : ∀ p ∈ extra, p.1 ≠ k) :
    lookupProp extra k = JsValue.undef := by
  induction extra with
  | nil => rfl
  | cons p rest ih =>
    obtain ⟨k2, v⟩ := p
    have hk : k2 ≠ k := h (k2, v) (List.mem_cons_self _ _)
    simp only [lookupProp, if_neg hk]
    exact ih (fun q hq => h q (List.mem_cons_of_mem _ hq))

theorem lookupProp_append (o extra : JsObject) (k : String) (h : ∀ p ∈ extra, p.1 ≠ k) :
    lookupProp (o ++ extra) k = lookupProp o k := by
  induction o with
  | nil => simpa [lookupProp] using lookupProp_not_mem extra k h
  | cons p rest ih =>
    obtain ⟨k2, v⟩ := p
    by_cases hk : k2 = k
    · simp [lookupProp, hk]
    · simpa [lookupProp, hk] using ih

/-! ## Claims about the fingerprint deriver -/

/-- Claim C2: two certificate-record inputs that carry identical values for
the five fields produce the identical fingerprint, regardless of the order
in which the fields appear in the input representation. -/
theorem generateCertificateHash_deterministic (o1 o2 : JsObject)
    (h1 : lookupProp o1 "certificateNumber" = lookupProp o2 "certificateNumber")
    (h2 : lookupProp o1 "recipientName" = lookupProp o2 "recipientName")
    (h3 : lookupProp o1 "certificateType" = lookupProp o2 "certificateType")
    (h4 : lookupProp o1 "issueDate" = lookupProp o2 "issueDate")
    (h5 : lookupProp o1 "issuingEntityId" = lookupProp o2 "issuingEntityId") :
    generateCertificateHash o1 = generateCertificateHash o2 := by
  unfold generateCertificateHash certDigest
  rw [canonicalString_congr h1 h2 h3 h4 h5]

/-- Witness for C2: the example record and its field-reversed variant hash
identically. -/
theorem generateCertificateHash_deterministic_witness :
    lookupProp exObjReordered "certificateNumber" = lookupProp exObj "certificateNumber" ∧
    lookupProp exObjReordered "recipientName" = lookupProp exObj "recipientName" ∧
    lookupProp exObjReordered "certificateType" = lookupProp exObj "certificateType" ∧
    lookupProp exObjReordered "issueDate" = lookupProp exObj "issueDate" ∧
    lookupProp exObjReordered "issuingEntityId" = lookupProp exObj "issuingEntityId" ∧
    generateCertificateHash exObjReordered = generateCertificateHash exObj :=
  ⟨by decide, by decide, by decide, by decide, by decide,
   generateCertificateHash_deterministic exObjReordered exObj
     (by decide) (by decide) (by decide) (by decide) (by decide)⟩

/-- Claim C9: the fingerprint depends only on the five named fields; extra
properties carried by the input never reach the canonical serialization. -/
theorem generateCertificateHash_ignores_extra_props (o extra : JsObject)
    (h : ∀ p ∈ extra,
      p.1 ∉ (["certificateNumber", "recipientName", "certificateType",
              "issueDate", "issuingEntityId"] : List String)) :
    generateCertificateHash (o ++ extra) = generateCertificateHash o := by
  have mk : ∀ k : String,
      k ∈ (["certificateNumber", "recipientName", "certificateType",
            "issueDate", "issuingEntityId"] : List String) →
      ∀ p ∈ extra, p.1 ≠ k := by
    intro k hkmem p hp heq
    exact h p hp (heq ▸ hkmem)
  unfold generateCertificateHash certDigest
  rw [canonicalString_congr
    (lookupProp_append o extra _ (mk _ (by decide)))
    (lookupProp_append o extra _ (mk _ (by decide)))
    (lookupProp_append o extra _ (mk _ (by decide)))
    (lookupProp_append o extra _ (mk _ (by decide)))
    (lookupProp_append o extra _ (mk _ (by decide)))]

/-- Witness for C9: appending a grade and a notes property to the example
record leaves the fingerprint unchanged. -/
theorem generateCertificateHash_ignores_extra_props_witness :
    (∀ p ∈ extraProps,
      p.1 ∉ (["certificateNumber", "recipientName", "certificateType",
              "issueDate", "issuingEntityId"] : List String)) ∧
    generateCertificateHash (exObj ++ extraProps) = generateCertificateHash exObj :=
  ⟨by decide, generateCertificateHash_ignores_extra_props exObj extraProps (by decide)⟩

/-- Claim C6: for every certificate record the derived fingerprint is a
0x-prefixed lowercase hexadecimal string of exactly 66 characters. -/
theorem generateCertificateHash_encoding (o : JsObject) :
    (generateCertificateHash o).length = 66 ∧
    strStartsWith0x (generateCertificateHash o) = true ∧
    ∀ c ∈ (generateCertificateHash o).data.drop 2, isLowerHexDigit c = true := by
  refine ⟨?_, genHash_startsWith o, ?_⟩
  · simp [generateCertificateHash, hexlify, String.length, hexChars_length, certDigest_length]
  · intro c hc
    simp only [generateCertificateHash, hexlify, List.drop] at hc
    exact hexChars_lower _ c hc

/-- Claim C8: checkBlockchainConnection never propagates a failure: every
probe outcome is mapped to a returned status, a successful probe to
connected with the network name and block height, a thrown error to a
connected false value carrying an error description. -/
theorem checkBlockchainConnection_total (n : String) (b : Nat) (m : String) :
    checkBlockchainConnection (ProbeOutcome.ok n b) = ⟨true, some n, some b, none⟩ ∧
    (checkBlockchainConnection (ProbeOutcome.threw m)).connected = false ∧
    (checkBlockchainConnection (ProbeOutcome.threw m)).error =
      some (jsOrS m "Failed to connect to blockchain") ∧
    ∀ p : ProbeOutcome,
      (checkBlockchainConnection p).connected = true ∨
      ((checkBlockchainConnection p).connected = false ∧
        (checkBlockchainConnection p).error ≠ none) := by
  refine ⟨rfl, rfl, rfl, ?_⟩
  intro p
  cases p with
  | ok n2 b2 => exact Or.inl rfl
  | threw m2 => exact Or.inr ⟨rfl, by simp [checkBlockchainConnection]⟩

/-! ## The anchored ledger state -/

theorem anchorState_eq (st : LedgerState) (K : String) (cd : JsObject) (ts : Nat)
    (issuer : String) :
    anchorState st K cd ts issuer = ⟨(K, ⟨certDigest cd, ts, issuer⟩) :: st.entries⟩ := by
  simp [anchorState, genHash_startsWith, contractStore, getBytes32_genHash]

theorem contractVerify_anchored (st : LedgerState) (K : String) (cd : JsObject) (ts : Nat)
    (issuer : String) :
    contractVerify (anchorState st K cd ts issuer) K =
      ⟨generateCertificateHash cd, ts, issuer⟩ := by
  rw [anchorState_eq]
  simp [contractVerify, lookupRecord, generateCertificateHash]

/-! ## Claims about the anchoring and verification coordinators -/

/-- Claim C1: anchoring a record under a key and then calling the match
verification against the same ledger state yields the anchored-and-matches
verdict, with the local fingerprint equal to the ledger fingerprint.  The
route rejects an empty key before querying, and the derived fingerprint must
differ from the all-zero sentinel (the accepted approximation noted by the
spec). -/
theorem anchored_roundtrip_matches (st : LedgerState) (K : String) (cd : JsObject)
    (ts : Nat) (issuer : String) (hK : K ≠ "")
    (hz : generateCertificateHash cd ≠ ZeroHash) :
    verifyPOST (okClient (anchorState st K cd ts issuer)) (some K) (some cd) =
      ApiResponse.ok "Certificate verified and hash matches"
        ⟨true, true, some (generateCertificateHash cd), some (generateCertificateHash cd),
         some ts, some issuer⟩ := by
  have hcv := contractVerify_anchored st K cd ts issuer
  simp [verifyPOST, okClient, verifyCertificateOnBlockchain, hcv, hK, hz]

/-- Witness for C1: the example record anchored under its certificate number
round-trips to anchored-and-matches on the empty ledger. -/
theorem anchored_roundtrip_matches_witness :
    ("CERT-2025-ABC123" : String) ≠ "" ∧
    generateCertificateHash exObj ≠ ZeroHash ∧
    verifyPOST (okClient (anchorState ⟨[]⟩ "CERT-2025-ABC123" exObj 1736899200 "0x8ba1f109551bd432803012645ac136ddd64dba72"))
        (some "CERT-2025-ABC123") (some exObj) =
      ApiResponse.ok "Certificate verified and hash matches"
        ⟨true, true, some (generateCertificateHash exObj), some (generateCertificateHash exObj),
         some 1736899200, some "0x8ba1f109551bd432803012645ac136ddd64dba72"⟩ :=
  ⟨by decide, by decide,
   anchored_roundtrip_matches ⟨[]⟩ "CERT-2025-ABC123" exObj 1736899200
     "0x8ba1f109551bd432803012645ac136ddd64dba72" (by decide) (by decide)⟩

/-- Claim C3: after anchoring a record, verifying a record that differs in at
least one of the five fields yields the anchored-but-mismatch verdict.  As
for any cryptographic hash this holds under the collision-resistance
assumption, taken here as the hypothesis that the two derived fingerprints
differ (guaranteed only with overwhelming probability in the spec). -/
theorem anchored_tamper_mismatch (st : LedgerState) (K : String) (cd cd2 : JsObject)
    (ts : Nat) (issuer : String) (hK : K ≠ "")
    (hz : generateCertificateHash cd ≠ ZeroHash)
    (hfield : ∃ f ∈ (["certificateNumber", "recipientName", "certificateType",
                      "issueDate", "issuingEntityId"] : List String),
      lookupProp cd2 f ≠ lookupProp cd f)
    (hdiff : generateCertificateHash cd ≠ generateCertificateHash cd2) :
    verifyPOST (okClient (anchorState st K cd ts issuer)) (some K) (some cd2) =
      ApiResponse.ok "Certificate found but hash mismatch"
        ⟨true, false, some (generateCertificateHash cd2), some (generateCertificateHash cd),
         some ts, some issuer⟩ := by
  have hcv := contractVerify_anchored st K cd ts issuer
  simp [verifyPOST, okClient, verifyCertificateOnBlockchain, hcv, hK, hz, hdiff]

/-- Witness for C3: tampering with the issue date of the anchored example
record is detected as anchored-but-mismatch. -/
theorem anchored_tamper_mismatch_witness :
    ("CERT-2025-ABC123" : String) ≠ "" ∧
    generateCertificateHash exObj ≠ ZeroHash ∧
    (∃ f ∈ (["certificateNumber", "recipientName", "certificateType",
             "issueDate", "issuingEntityId"] : List String),
      lookupProp exObjTampered f ≠ lookupProp exObj f) ∧
    generateCertificateHash exObj ≠ generateCertificateHash exObjTampered ∧
    verifyPOST (okClient (anchorState ⟨[]⟩ "CERT-2025-ABC123" exObj 1736899200 "0x8ba1f109551bd432803012645ac136ddd64dba72"))
        (some "CERT-2025-ABC123") (some exObjTampered) =
      ApiResponse.ok "Certificate found but hash mismatch"
        ⟨true, false, some (generateCertificateHash exObjTampered),
         some (generateCertificateHash exObj), some 1736899200,
         some "0x8ba1f109551bd432803012645ac136ddd64dba72"⟩ :=
  ⟨by decide, by decide, by decide, by decide,
   anchored_tamper_mismatch ⟨[]⟩ "CERT-2025-ABC123" exObj exObjTampered 1736899200
     "0x8ba1f109551bd432803012645ac136ddd64dba72" (by decide) (by decide) (by decide) (by decide)⟩

/-- Claim C4: a key never anchored (the ledger query answers the all-zero
sentinel) makes both verification routes answer a successful not-anchored
verdict rather than an error, and the verification coordinator reports an
error exactly when the underlying query throws. -/
theorem notAnchored_not_error (K : String) (cd : JsObject) (ts : Nat) (issuer : String)
    (hK : K ≠ "") :
    verifyGET (fun _ => LedgerOutcome.ok ⟨ZeroHash, ts, issuer⟩) (some K) =
      ApiResponse.ok "Certificate not found on blockchain" ⟨false, none, none, none⟩ ∧
    verifyPOST (fun _ => LedgerOutcome.ok ⟨ZeroHash, ts, issuer⟩) (some K) (some cd) =
      ApiResponse.ok "Certificate not found on blockchain" ⟨false, false, none, none, none, none⟩ ∧
    (∀ c : ContractCert,
      (verifyCertificateOnBlockchain (fun _ => LedgerOutcome.ok c) K).success = true) ∧
    (∀ msg,
      (verifyCertificateOnBlockchain (fun _ => LedgerOutcome.threw msg) K).success = false ∧
      (verifyCertificateOnBlockchain (fun _ => LedgerOutcome.threw msg) K).error =
        some (jsOrS msg "Failed to verify certificate on blockchain")) := by
  refine ⟨?_, ?_, ?_, ?_⟩
  · simp [verifyGET, verifyCertificateOnBlockchain, hK]
  · simp [verifyPOST, verifyCertificateOnBlockchain, hK]
  · intro c
    by_cases hc : c.hash = ZeroHash <;> simp [verifyCertificateOnBlockchain, hc]
  · intro msg
    exact ⟨rfl, rfl⟩

/-- Witness for C4: a fresh key on an all-zero-answering ledger is reported
as not anchored through both routes. -/
theorem notAnchored_not_error_witness :
    ("CERT-NEVER-ANCHORED" : String) ≠ "" ∧
    verifyGET (fun _ => LedgerOutcome.ok ⟨ZeroHash, 0, ZeroAddress⟩) (some "CERT-NEVER-ANCHORED") =
      ApiResponse.ok "Certificate not found on blockchain" ⟨false, none, none, none⟩ ∧
    verifyPOST (fun _ => LedgerOutcome.ok ⟨ZeroHash, 0, ZeroAddress⟩) (some "CERT-NEVER-ANCHORED")
        (some exObj) =
      ApiResponse.ok "Certificate not found on blockchain" ⟨false, false, none, none, none, none⟩ :=
  ⟨by decide,
   (notAnchored_not_error "CERT-NEVER-ANCHORED" exObj 0 ZeroAddress (by decide)).1,
   (notAnchored_not_error "CERT-NEVER-ANCHORED" exObj 0 ZeroAddress (by decide)).2.1⟩

/-- Claim C10: when the ledger record is absent the match-verification
response is exactly the fixed payload with verified false and hashMatch
false, carries no fingerprint, timestamp or issuer fields, and does not
depend on the supplied certificate record. -/
theorem verifyPOST_not_anchored_shape (K : String) (hK : K ≠ "") (c : ContractCert)
    (hz : c.hash = ZeroHash) (cd cd2 : JsObject) :
    verifyPOST (fun _ => LedgerOutcome.ok c) (some K) (some cd) =
      ApiResponse.ok "Certificate not found on blockchain" ⟨false, false, none, none, none, none⟩ ∧
    verifyPOST (fun _ => LedgerOutcome.ok c) (some K) (some cd) =
      verifyPOST (fun _ => LedgerOutcome.ok c) (some K) (some cd2) := by
  have h1 : ∀ cdx : JsObject, verifyPOST (fun _ => LedgerOutcome.ok c) (some K) (some cdx) =
      ApiResponse.ok "Certificate not found on blockchain" ⟨false, false, none, none, none, none⟩ := by
    intro cdx
    simp [verifyPOST, verifyCertificateOnBlockchain, hK, hz]
  exact ⟨h1 cd, (h1 cd).trans (h1 cd2).symm⟩

/-- Witness for C10: with the sentinel answer, the example record and the
tampered record receive the identical fixed not-anchored payload. -/
theorem verifyPOST_not_anchored_shape_witness :
    ("CERT-ABSENT" : String) ≠ "" ∧
    (ContractCert.mk ZeroHash 0 ZeroAddress).hash = ZeroHash ∧
    verifyPOST (fun _ => LedgerOutcome.ok ⟨ZeroHash, 0, ZeroAddress⟩) (some "CERT-ABSENT")
        (some exObj) =
      verifyPOST (fun _ => LedgerOutcome.ok ⟨ZeroHash, 0, ZeroAddress⟩) (some "CERT-ABSENT")
        (some exObjTampered) :=
  ⟨by decide, rfl,
   (verifyPOST_not_anchored_shape "CERT-ABSENT" (by decide) ⟨ZeroHash, 0, ZeroAddress⟩ rfl
     exObj exObjTampered).2⟩

/-- Claim C5 counterexample: the comparison performed by the match
verification is JavaScript strict string equality and is NOT
case-insensitive.  The uppercase variant of the derived fingerprint denotes
exactly the same 32 digest bytes, differs from it only in letter case, and
yet the route reports a mismatch when the ledger side carries the uppercase
encoding. -/
theorem verifyPOST_compare_not_case_insensitive_cex :
    getBytes32 (toUpperHex (generateCertificateHash exObj)) = some (certDigest exObj) ∧
    getBytes32 (generateCertificateHash exObj) = some (certDigest exObj) ∧
    toUpperHex (generateCertificateHash exObj) ≠ generateCertificateHash exObj ∧
    verifyPOST
        (fun _ => LedgerOutcome.ok ⟨toUpperHex (generateCertificateHash exObj), 5, ZeroAddress⟩)
        (some "CERT-2025-ABC123") (some exObj) =
      ApiResponse.ok "Certificate found but hash mismatch"
        ⟨true, false, some (generateCertificateHash exObj),
         some (toUpperHex (generateCertificateHash exObj)), some 5, some ZeroAddress⟩ :=
  ⟨by decide, getBytes32_genHash exObj, by decide, by decide⟩

/-- Claim C5 (amended): the comparison is exact, case-sensitive string
equality; it nevertheless decides digest content equality because both
operands are canonically lowercase hex encodings — the locally derived
fingerprint by construction and the ledger fingerprint as decoded from the
stored 32 bytes.  Equal digest bytes compare equal and different digest
bytes compare unequal. -/
theorem verifyPOST_exact_compare_decides_content (K : String) (hK : K ≠ "") (cd : JsObject)
    (bs : List Nat) (hlen : bs.length = 32) (hlt : ∀ b ∈ bs, b < 256)
    (hnz : hexlify bs ≠ ZeroHash) (ts : Nat) (issuer : String) :
    verifyPOST (fun _ => LedgerOutcome.ok ⟨hexlify bs, ts, issuer⟩) (some K) (some cd) =
      ApiResponse.ok
        (if certDigest cd = bs then "Certificate verified and hash matches"
         else "Certificate found but hash mismatch")
        ⟨true, decide (certDigest cd = bs), some (generateCertificateHash cd),
         some (hexlify bs), some ts, some issuer⟩ := by
  by_cases hd : certDigest cd = bs
  · have he : hexlify bs = generateCertificateHash cd := by
      rw [generateCertificateHash, hd]
    have hnz2 : generateCertificateHash cd ≠ ZeroHash := he ▸ hnz
    simp [verifyPOST, verifyCertificateOnBlockchain, hK, hd, he, hnz2]
  · have he : hexlify bs ≠ generateCertificateHash cd := by
      intro h
      have hb : bs = certDigest cd :=
        hexlify_inj bs (certDigest cd) hlen hlt (certDigest_length cd) (certDigest_lt cd)
          (by rw [h, generateCertificateHash])
      exact hd hb.symm
    simp [verifyPOST, verifyCertificateOnBlockchain, hK, hnz, hd, he]

/-- Witness for the amended C5: against a stored digest of 32 bytes 0xab the
example record is reported as a mismatch, the comparison deciding content
inequality. -/
theorem verifyPOST_exact_compare_decides_content_witness :
    ("CERT-2025-ABC123" : String) ≠ "" ∧
    (List.replicate 32 171).length = 32 ∧
    (∀ b ∈ List.replicate 32 171, b < 256) ∧
    hexlify (List.replicate 32 171) ≠ ZeroHash ∧
    verifyPOST (fun _ => LedgerOutcome.ok ⟨hexlify (List.replicate 32 171), 9, ZeroAddress⟩)
        (some "CERT-2025-ABC123") (some exObj) =
      ApiResponse.ok
        (if certDigest exObj = List.replicate 32 171 then "Certificate verified and hash matches"
         else "Certificate found but hash mismatch")
        ⟨true, decide (certDigest exObj = List.replicate 32 171),
         some (generateCertificateHash exObj), some (hexlify (List.replicate 32 171)),
         some 9, some ZeroAddress⟩ :=
  ⟨by decide, by decide, by decide, by decide,
   verifyPOST_exact_compare_decides_content "CERT-2025-ABC123" (by decide) exObj
     (List.replicate 32 171) (by decide) (by decide) (by decide) 9 ZeroAddress⟩

/-- Claim C7 counterexample: the store route does NOT validate the fields of
the certificate record.  A present record object all five of whose fields
are missing passes validation, and the request proceeds to the ledger: with
a throwing ledger the result is a SubmissionFailed 500 response, not the
InvalidInput 400 response the claim requires for a record with missing
fields. -/
theorem storePOST_missing_fields_not_rejected_cex :
    lookupProp ([] : JsObject) "certificateNumber" = JsValue.undef ∧
    lookupProp ([] : JsObject) "recipientName" = JsValue.undef ∧
    lookupProp ([] : JsObject) "certificateType" = JsValue.undef ∧
    lookupProp ([] : JsObject) "issueDate" = JsValue.undef ∧
    lookupProp ([] : JsObject) "issuingEntityId" = JsValue.undef ∧
    storePOST (fun _ _ => LedgerOutcome.threw "ledger unreachable") (some "CERT-1")
        (some ([] : JsObject)) =
      ApiResponse.serverError "ledger unreachable" :=
  ⟨rfl, rfl, rfl, rfl, rfl, by decide⟩

/-- Claim C7 (amended): the store operation returns the InvalidInput 400
response exactly when the key is missing or empty or the record object
itself is missing — the fields of the record are never validated; otherwise
a failed submission yields a SubmissionFailed 500 response carrying the
underlying ledger error message (or a fixed fallback when that message is
empty), and a successful submission yields the success payload. -/
theorem storePOST_error_taxonomy (submit : String → String → LedgerOutcome String)
    (cn? : Option String) (cd? : Option JsObject) :
    (cn? = none ∨ cn? = some "" ∨ cd? = none →
      storePOST submit cn? cd? = ApiResponse.badRequest "Certificate number and data are required") ∧
    (∀ cn cd, cn? = some cn → cd? = some cd → cn ≠ "" →
      ∀ m, submit cn (generateCertificateHash cd) = LedgerOutcome.threw m →
      storePOST submit cn? cd? =
        ApiResponse.serverError (jsOrS m "Failed to store certificate on blockchain")) ∧
    (∀ cn cd, cn? = some cn → cd? = some cd → cn ≠ "" →
      ∀ tx, submit cn (generateCertificateHash cd) = LedgerOutcome.ok tx →
      storePOST submit cn? cd? =
        ApiResponse.ok "Certificate stored on blockchain successfully"
          ⟨generateCertificateHash cd, some tx⟩) ∧
    (∀ cn cd, cn? = some cn → cd? = some cd → cn ≠ "" →
      ∀ s, storePOST submit cn? cd? ≠ ApiResponse.badRequest s) := by
  refine ⟨?_, ?_, ?_, ?_⟩
  · intro h
    rcases h with h | h | h
    · subst h; cases cd? <;> rfl
    · subst h; cases cd? <;> simp [storePOST]
    · subst h; cases cn? <;> rfl
  · intro cn cd hcn hcd hne m hsub
    subst hcn; subst hcd
    by_cases hm : m = "" <;>
      simp [storePOST, storeCertificateOnBlockchain, genHash_startsWith, hne, hsub, jsOr, jsOrS, hm]
  · intro cn cd hcn hcd hne tx hsub
    subst hcn; subst hcd
    simp [storePOST, storeCertificateOnBlockchain, genHash_startsWith, hne, hsub]
  · intro cn cd hcn hcd hne s
    subst hcn; subst hcd
    cases hsub : submit cn (generateCertificateHash cd) with
    | ok tx =>
      simp [storePOST, storeCertificateOnBlockchain, genHash_startsWith, hne, hsub]
    | threw m =>
      simp [storePOST, storeCertificateOnBlockchain, genHash_startsWith, hne, hsub]

/-- Witness for the amended C7: an empty key is rejected with 400, and with a
valid body a throwing ledger write surfaces as a 500 carrying the original
message. -/
theorem storePOST_error_taxonomy_witness :
    storePOST (fun _ _ => LedgerOutcome.threw "insufficient funds") (some "") (some exObj) =
      ApiResponse.badRequest "Certificate number and data are required" ∧
    storePOST (fun _ _ => LedgerOutcome.threw "insufficient funds") (some "CERT-7") (some exObj) =
      ApiResponse.serverError (jsOrS "insufficient funds" "Failed to store certificate on blockchain") :=
  ⟨(storePOST_error_taxonomy (fun _ _ => LedgerOutcome.threw "insufficient funds")
      (some "") (some exObj)).1 (Or.inr (Or.inl rfl)),
   (storePOST_error_taxonomy (fun _ _ => LedgerOutcome.threw "insufficient funds")
      (some "CERT-7") (some exObj)).2.1 "CERT-7" exObj rfl rfl (by decide) "insufficient funds" rfl⟩
